import Mathlib

/-!
Shallow embedding of the Lettera authentication core: the JWT helper
(`utils/jwt.ts`), the ephemeral key-value store adapter
(`database/redis/redisUtils.ts`, modelled in its deterministic in-process
fallback mode, with the remote-path `sadd`/`expire` sequence modelled
separately where a claim distinguishes the two paths), and the account
state machine (`services/AuthService.ts`).

Modelling conventions:
* Machine time is a `Nat` of milliseconds (`Date.now()`); TTL arguments are
  seconds, converted with `* 1000` exactly as the source does.
* A signed JWT string is modelled by its payload `Jwt`: HS256 signing with a
  fixed secret is deterministic and injective on payloads, so string
  equality of tokens coincides with payload equality.
* External collaborators (MongoDB id assignment, `Math.random` code
  generation, SMTP transport, bcrypt) enter as explicit parameters or
  abstract functions; everything the repository itself computes is
  translated directly.
* TypeScript exceptions do not roll back prior writes, so every operation
  returns the (possibly mutated) state together with an
  `Except HttpError` result.
-/

/-- Association-list lookup keyed by strings, first match wins
(JS `Map.get`). -/
def assocFind {α : Type} (l : List (String × α)) (k : String) : Option α :=
  match l with
  | [] => none
  | (k', v) :: rest => if k' = k then some v else assocFind rest k

/-- JS `Map.set`: replace the value in place if the key is present,
append otherwise. -/
def assocSet {α : Type} (l : List (String × α)) (k : String) (v : α) :
    List (String × α) :=
  match l with
  | [] => [(k, v)]
  | (k', v') :: rest =>
      if k' = k then (k, v) :: rest else (k', v') :: assocSet rest k v

/-- JS `Map.delete`: remove every binding of the key. -/
def assocDelete {α : Type} (l : List (String × α)) (k : String) :
    List (String × α) :=
  match l with
  | [] => []
  | (k', v') :: rest =>
      if k' = k then assocDelete rest k else (k', v') :: assocDelete rest k

/-- `HttpError` from `utils/HttpError.ts`: status code, message and
machine-readable code. -/
structure HttpError where
  statusCode : Nat
  message : String
  code : String
deriving DecidableEq, Repr

/-- JWT payload as signed by `utils/jwt.ts`.  An access token carries
`userId` and `email`; a refresh token carries `userId` and the
`type = refresh` discriminator (field named `typ` here).  `iat`/`exp`
are in milliseconds of model time. -/
structure Jwt where
  userId : String
  email : Option String
  typ : Option String
  iat : Nat
  exp : Nat
deriving DecidableEq, Repr

/-- `JWT_EXPIRES_IN = 15m`, in milliseconds. -/
def accessTokenLifetimeMs : Nat := 15 * 60 * 1000

/-- `REFRESH_TOKEN_EXPIRES_IN = 7d`, in milliseconds. -/
def refreshTokenLifetimeMs : Nat := 7 * 24 * 60 * 60 * 1000

namespace JWTService

/-- `JWTService.generateAccessToken`: sign `(userId, email)` with a 15
minute expiry. -/
def generateAccessToken (userId email : String) (now : Nat) : Jwt :=
  { userId := userId, email := some email, typ := none,
    iat := now, exp := now + accessTokenLifetimeMs }

/-- `JWTService.generateRefreshToken`: sign `(userId, type = refresh)`
with a 7 day expiry. -/
def generateRefreshToken (userId : String) (now : Nat) : Jwt :=
  { userId := userId, email := none, typ := some "refresh",
    iat := now, exp := now + refreshTokenLifetimeMs }

/-- `JWTService.verifyAccessToken`: `jwt.verify` checks signature and
expiry only — there is no discriminator check in this function. -/
def verifyAccessToken (t : Jwt) (now : Nat) : Except String Jwt :=
  if now < t.exp then .ok t
  else .error "Invalid or expired token"

/-- `JWTService.verifyRefreshToken`: `jwt.verify`, then reject when
`decoded.type` is not the string `refresh`.  Both the expiry failure and
the discriminator failure are caught and rethrown as the same error. -/
def verifyRefreshToken (t : Jwt) (now : Nat) : Except String Jwt :=
  if now < t.exp then
    if t.typ = some "refresh" then .ok t
    else .error "Invalid or expired refresh token"
  else .error "Invalid or expired refresh token"

end JWTService

/-- The `InMemoryFallback` class of `redisUtils.ts`: three maps with
explicit expiry timestamps (the `setTimeout` sweepers only ever remove
entries that the getters would already treat as expired, so the getters'
expiry checks carry the observable TTL semantics). -/
structure InMemoryFallback where
  emailCodes : List (String × String × Nat)
  refreshTokens : List (String × List Jwt × Nat)
  userStatuses : List (String × String × Nat)
deriving DecidableEq, Repr

namespace InMemoryFallback

/-- `InMemoryFallback.setEmailCode`: store `(code, now + ttl·1000)` under
the email, replacing any previous entry. -/
def setEmailCode (st : InMemoryFallback) (email code : String)
    (ttl now : Nat) : InMemoryFallback :=
  { st with emailCodes := assocSet st.emailCodes email (code, now + ttl * 1000) }

/-- `InMemoryFallback.getEmailCode`: return the stored code unless the
entry is absent or expired; an expired entry is deleted on read. -/
def getEmailCode (st : InMemoryFallback) (email : String) (now : Nat) :
    Option String × InMemoryFallback :=
  match assocFind st.emailCodes email with
  | none => (none, st)
  | some (code, ts) =>
      if ts ≤ now then
        (none, { st with emailCodes := assocDelete st.emailCodes email })
      else (some code, st)

/-- `InMemoryFallback.deleteEmailCode`. -/
def deleteEmailCode (st : InMemoryFallback) (email : String) :
    InMemoryFallback :=
  { st with emailCodes := assocDelete st.emailCodes email }

/-- `InMemoryFallback.setRefreshToken`: if the user already has an entry,
add the token to its `Set` (append-if-absent, JS insertion order) and
leave the entry's expiry timestamp unchanged; otherwise create the entry
with expiry `now + ttl·1000`. -/
def setRefreshToken (st : InMemoryFallback) (userId : String) (token : Jwt)
    (ttl now : Nat) : InMemoryFallback :=
  match assocFind st.refreshTokens userId with
  | none =>
      { st with refreshTokens :=
          assocSet st.refreshTokens userId ([token], now + ttl * 1000) }
  | some (toks, ts) =>
      let toks' := if token ∈ toks then toks else toks ++ [token]
      { st with refreshTokens := assocSet st.refreshTokens userId (toks', ts) }

/-- `InMemoryFallback.getRefreshToken`: return the first token of the
user's set (`tokens.values().next().value || null`), deleting the entry if
expired. -/
def getRefreshToken (st : InMemoryFallback) (userId : String) (now : Nat) :
    Option Jwt × InMemoryFallback :=
  match assocFind st.refreshTokens userId with
  | none => (none, st)
  | some (toks, ts) =>
      if ts ≤ now then
        (none, { st with refreshTokens := assocDelete st.refreshTokens userId })
      else (toks.head?, st)

/-- `InMemoryFallback.invalidateAllRefreshTokens`. -/
def invalidateAllRefreshTokens (st : InMemoryFallback) (userId : String) :
    InMemoryFallback :=
  { st with refreshTokens := assocDelete st.refreshTokens userId }

end InMemoryFallback

/-- State of the remote-store key `user:refresh_token:<id>` as the
Redis-path branch of `redisUtils.setRefreshToken` manipulates it: the set
of members and the key's absolute expiry time. -/
structure RedisRefreshEntry where
  members : List Jwt
  expiresAt : Nat
deriving DecidableEq, Repr

/-- Remote-path branch of `redisUtils.setRefreshToken`:
`redis.sadd(key, token)` followed by `redis.expire(key, ttl)` — the member
is added to the set (never replacing existing members) and the key's TTL
is reset to the full value on every call. -/
def redisSetRefreshToken (entry : Option RedisRefreshEntry) (token : Jwt)
    (ttl now : Nat) : RedisRefreshEntry :=
  let members :=
    match entry with
    | none => [token]
    | some e => if token ∈ e.members then e.members else e.members ++ [token]
  { members := members, expiresAt := now + ttl * 1000 }

/-- The durable identity record (`models/User.ts`), restricted to the
fields the authentication core reads or writes.  Optional profile fields
are owned by other routes and omitted. -/
structure StoredUser where
  id : String
  email : String
  passwordHash : String
  firstName : String
  lastName : String
  emailVerified : Bool
deriving DecidableEq, Repr

/-- Combined server state: the durable user collection plus the ephemeral
store (adapter in fallback mode). -/
structure ServerState where
  users : List StoredUser
  store : InMemoryFallback
deriving DecidableEq, Repr

/-- JS `toLowerCase` on the ASCII range (emails in this system are
ASCII), written with structural recursion so that it evaluates. -/
def lowerChar (c : Char) : Char :=
  if c.toNat ≥ 65 ∧ c.toNat ≤ 90 then Char.ofNat (c.toNat + 32) else c

/-- JS `String.prototype.toLowerCase`. -/
def lowerString (s : String) : String := ⟨s.data.map lowerChar⟩

/-- JS `String.prototype.trim`: strip whitespace from both ends. -/
def trimString (s : String) : String :=
  ⟨((s.data.dropWhile fun c => c.isWhitespace).reverse.dropWhile
      fun c => c.isWhitespace).reverse⟩

/-- `User.findOne` with the email lowercased — first user whose stored
email equals the lowercased query. -/
def findByEmail (users : List StoredUser) (email : String) :
    Option StoredUser :=
  users.find? (fun u => u.email == lowerString email)

/-- `User.findById`. -/
def findById (users : List StoredUser) (id : String) : Option StoredUser :=
  users.find? (fun u => u.id == id)

/-- `user.save()` after flipping `emailVerified`: persist the modified
document for this id. -/
def markVerified (users : List StoredUser) (id : String) :
    List StoredUser :=
  users.map (fun u => if u.id = id then { u with emailVerified := true } else u)

/-- Result record of `AuthService.register` (no tokens are present in
this type). -/
structure RegisterResult where
  success : Bool
  message : String
  email : String
deriving DecidableEq, Repr

/-- Public user projection returned by `AuthService.verifyEmail`. -/
structure PublicUser where
  id : String
  email : String
  firstName : String
  lastName : String
deriving DecidableEq, Repr

/-- `AuthResponse` of `AuthService.verifyEmail`. -/
structure AuthResponse where
  accessToken : Jwt
  refreshToken : Jwt
  user : PublicUser
deriving DecidableEq, Repr

/-- `RegisterRequest`. -/
structure RegisterRequest where
  email : String
  password : String
  firstName : String
  lastName : String
deriving DecidableEq, Repr

/-- The special-character class of `AuthService.validatePassword`'s third
regex.  `Char.ofNat` spells the quote (39), double quote (34), backslash
(92) and braces (123, 125). -/
def specialCharacters : List Char :=
  ['!', '@', '#', '$', '%', '^', '&', '*', '(', ')', '_', '+', '-', '=',
   '[', ']', Char.ofNat 123, Char.ofNat 125, ';', Char.ofNat 39, ':',
   Char.ofNat 34, Char.ofNat 92, '|', ',', '.', '<', '>', '/', '?']

/-- Result of `AuthService.validatePassword`. -/
structure PasswordValidation where
  isValid : Bool
  errors : List String
deriving DecidableEq, Repr

/-- bcrypt is an external collaborator; modelled as an injective opaque
tag on the plaintext (nothing in the claims depends on its value). -/
def hashPassword (plaintext : String) : String :=
  "bcrypt-12:" ++ plaintext

namespace AuthService

/-- `AuthService.validatePassword`: collect one message per violated rule
in source order (length, digit, special character). -/
def validatePassword (password : String) : PasswordValidation :=
  let errors : List String :=
    (if password.length < 8 then
      ["Password must be at least 8 characters long"] else []) ++
    (if password.toList.any (fun c => c.isDigit) then []
     else ["Password must contain at least one digit"]) ++
    (if password.toList.any (fun c => specialCharacters.contains c) then []
     else ["Password must contain at least one special character"])
  { isValid := errors.isEmpty, errors := errors }

/-- `AuthService.register`.  `code` stands for the value produced by
`generateVerificationCode` (`Math.random`, an external entropy source),
`newId` for the store-assigned Mongo id, and `emailOk` for whether the
SMTP collaborator accepts the send.  An email failure is a plain `Error`,
so the catch-all turns it into the generic 500 `REGISTRATION_ERROR`; the
user record and stored code created before the send are kept. -/
def register (s : ServerState) (req : RegisterRequest) (code : String)
    (newId : String) (emailOk : Bool) (now : Nat) :
    ServerState × Except HttpError RegisterResult :=
  if (findByEmail s.users req.email).isSome then
    (s, .error ⟨409, "User with this email already exists", "EMAIL_ALREADY_EXISTS"⟩)
  else
    let v := validatePassword req.password
    if !v.isValid then
      (s, .error ⟨400,
        "Password validation failed: " ++ String.intercalate ", " v.errors,
        "INVALID_PASSWORD"⟩)
    else
      let user : StoredUser :=
        { id := newId, email := lowerString req.email,
          passwordHash := hashPassword req.password,
          firstName := trimString req.firstName,
          lastName := trimString req.lastName,
          emailVerified := false }
      let s1 : ServerState := { s with users := s.users ++ [user] }
      let s2 : ServerState :=
        { s1 with store := s1.store.setEmailCode user.email code 600 now }
      if emailOk then
        (s2, .ok { success := true, message := "Verification code sent to email",
                   email := user.email })
      else
        (s2, .error ⟨500, "Registration failed", "REGISTRATION_ERROR"⟩)

/-- `AuthService.verifyEmail`. -/
def verifyEmail (s : ServerState) (email verificationCode : String)
    (now : Nat) : ServerState × Except HttpError AuthResponse :=
  match findByEmail s.users email with
  | none => (s, .error ⟨404, "User not found", "USER_NOT_FOUND"⟩)
  | some user =>
    if user.emailVerified then
      (s, .error ⟨400, "Email is already verified", "EMAIL_ALREADY_VERIFIED"⟩)
    else
      let fetched := s.store.getEmailCode user.email now
      let s1 : ServerState := { s with store := fetched.2 }
      match fetched.1 with
      | none =>
          (s1, .error ⟨400, "Verification code has expired", "CODE_EXPIRED"⟩)
      | some storedCode =>
        if storedCode ≠ verificationCode then
          (s1, .error ⟨400, "Invalid verification code", "INVALID_CODE"⟩)
        else
          let s2 : ServerState := { s1 with users := markVerified s1.users user.id }
          let s3 : ServerState := { s2 with store := s2.store.deleteEmailCode user.email }
          let accessToken := JWTService.generateAccessToken user.id user.email now
          let refreshToken := JWTService.generateRefreshToken user.id now
          let s4 : ServerState :=
            { s3 with store :=
                s3.store.setRefreshToken user.id refreshToken (7 * 24 * 60 * 60) now }
          (s4, .ok { accessToken := accessToken, refreshToken := refreshToken,
                     user := { id := user.id, email := user.email,
                               firstName := user.firstName,
                               lastName := user.lastName } })

/-- `AuthService.refreshToken`.  A failure inside
`JWTService.verifyRefreshToken` is a plain `Error`, so the catch-all maps
it to the 401 `REFRESH_ERROR`; the explicit store-membership check raises
the 401 `INVALID_REFRESH_TOKEN`. -/
def refreshToken (s : ServerState) (token : Jwt) (now : Nat) :
    ServerState × Except HttpError (Jwt × Jwt) :=
  match JWTService.verifyRefreshToken token now with
  | .error _ =>
      (s, .error ⟨401, "Token refresh failed", "REFRESH_ERROR"⟩)
  | .ok decoded =>
    let fetched := s.store.getRefreshToken decoded.userId now
    let s1 : ServerState := { s with store := fetched.2 }
    if fetched.1 ≠ some token then
      (s1, .error ⟨401, "Invalid refresh token", "INVALID_REFRESH_TOKEN"⟩)
    else
      match findById s1.users decoded.userId with
      | none =>
          (s1, .error ⟨401, "User not found or email not verified", "USER_NOT_FOUND"⟩)
      | some user =>
        if !user.emailVerified then
          (s1, .error ⟨401, "User not found or email not verified", "USER_NOT_FOUND"⟩)
        else
          let newAccessToken := JWTService.generateAccessToken user.id user.email now
          let newRefreshToken := JWTService.generateRefreshToken user.id now
          let s2 : ServerState :=
            { s1 with store :=
                s1.store.setRefreshToken user.id newRefreshToken (7 * 24 * 60 * 60) now }
          (s2, .ok (newAccessToken, newRefreshToken))

/-- `AuthService.logout`: `invalidateAllRefreshTokens`. -/
def logout (s : ServerState) (userId : String) : ServerState :=
  { s with store := s.store.invalidateAllRefreshTokens userId }

end AuthService

/-- Code of an error result, `none` on success — used to compare outcomes
without depending on messages. -/
def resultCode {α : Type} (r : Except HttpError α) : Option String :=
  match r with
  | .error e => some e.code
  | .ok _ => none

/-- Tokens currently stored for a user in the fallback store, ignoring
expiry (the refresh-credential set of the spec). -/
def storedRefreshTokens (st : InMemoryFallback) (userId : String) :
    List Jwt :=
  match assocFind st.refreshTokens userId with
  | none => []
  | some (toks, _) => toks

/-- The identity record `register` creates (before email dispatch). -/
def registeredUser (req : RegisterRequest) (newId : String) : StoredUser :=
  { id := newId, email := lowerString req.email,
    passwordHash := hashPassword req.password,
    firstName := trimString req.firstName,
    lastName := trimString req.lastName, emailVerified := false }

/-! ### Concrete demonstration states -/

/-- Empty ephemeral store. -/
def emptyStore : InMemoryFallback :=
  { emailCodes := [], refreshTokens := [], userStatuses := [] }

/-- Empty server state. -/
def emptyState : ServerState := { users := [], store := emptyStore }

/-- A verified identity. -/
def demoVerifiedUser : StoredUser :=
  { id := "u1", email := "a@x.com", passwordHash := hashPassword "Abcdef1!",
    firstName := "A", lastName := "B", emailVerified := true }

/-- A refresh token issued to `demoVerifiedUser` at time 1000. -/
def demoRefresh1 : Jwt := JWTService.generateRefreshToken "u1" 1000

/-- A refresh token issued to `demoVerifiedUser` at time 2000. -/
def demoRefresh2 : Jwt := JWTService.generateRefreshToken "u1" 2000

/-- State after `demoVerifiedUser` verified at time 1000:
`demoRefresh1` is the single stored refresh credential. -/
def demoRotState : ServerState :=
  { users := [demoVerifiedUser],
    store := { emptyStore with
      refreshTokens := [("u1", [demoRefresh1], 1000 + refreshTokenLifetimeMs)] } }

/-- Fallback store holding two refresh credentials for `u1`. -/
def demoTwoTokenStore : InMemoryFallback :=
  { emptyStore with
    refreshTokens := [("u1", [demoRefresh1, demoRefresh2],
      1000 + refreshTokenLifetimeMs)] }

/-- Server state around `demoTwoTokenStore`. -/
def demoTwoTokenState : ServerState :=
  { users := [demoVerifiedUser], store := demoTwoTokenStore }

/-- A pending (unverified) identity. -/
def demoPendingUser : StoredUser :=
  { id := "u2", email := "b@x.com", passwordHash := hashPassword "Abcdef1!",
    firstName := "A", lastName := "B", emailVerified := false }

/-- State with `demoPendingUser` awaiting the code `123456`
(stored until time 700000). -/
def demoPendingState : ServerState :=
  { users := [demoPendingUser],
    store := { emptyStore with
      emailCodes := [("b@x.com", "123456", 700000)] } }

/-- A well-formed registration request. -/
def demoRegisterReq : RegisterRequest :=
  { email := "a@x.com", password := "Abcdef1!", firstName := "A",
    lastName := "B" }

/-- Successful verification run of `demoPendingUser` at time 500. -/
def demoVerifyRun : ServerState × Except HttpError AuthResponse :=
  AuthService.verifyEmail demoPendingState "b@x.com" "123456" 500

/-- The response `demoVerifyRun` produces. -/
def demoAuthResponse : AuthResponse :=
  { accessToken := JWTService.generateAccessToken "u2" "b@x.com" 500,
    refreshToken := JWTService.generateRefreshToken "u2" 500,
    user := { id := "u2", email := "b@x.com", firstName := "A",
              lastName := "B" } }

/-! ### Store and state-machine lemmas -/

theorem assocFind_assocSet_self {α : Type} (l : List (String × α)) (k : String) (v : α) :
    assocFind (assocSet l k v) k = some v := by
  induction l with
  | nil => simp [assocSet, assocFind]
  | cons p rest ih =>
    obtain ⟨k', v'⟩ := p
    by_cases h : k' = k
    · simp [assocSet, h, assocFind]
    · simp [assocSet, h, assocFind, ih]

theorem assocFind_assocDelete_self {α : Type} (l : List (String × α)) (k : String) :
    assocFind (assocDelete l k) k = none := by
  induction l with
  | nil => simp [assocDelete, assocFind]
  | cons p rest ih =>
    obtain ⟨k', v'⟩ := p
    by_cases h : k' = k
    · simp [assocDelete, h, ih]
    · simp [assocDelete, h, assocFind, ih]

theorem setRefreshToken_emailCodes (st : InMemoryFallback) (uid : String)
    (tok : Jwt) (ttl now : Nat) :
    (st.setRefreshToken uid tok ttl now).emailCodes = st.emailCodes := by
  unfold InMemoryFallback.setRefreshToken
  split <;> rfl

theorem findByEmail_markVerified (users : List StoredUser) (uid email : String)
    (u : StoredUser) (h : findByEmail users email = some u) :
    findByEmail (markVerified users uid) email =
      some (if u.id = uid then { u with emailVerified := true } else u) := by
  unfold findByEmail markVerified
  rw [List.find?_map]
  have hc : ((fun x : StoredUser => x.email == lowerString email) ∘
      (fun x : StoredUser =>
        if x.id = uid then { x with emailVerified := true } else x)) =
      (fun x : StoredUser => x.email == lowerString email) := by
    funext x
    rcases eq_or_ne x.id uid with hx | hx
    · rw [Function.comp_apply, if_pos hx]
    · rw [Function.comp_apply, if_neg hx]
  rw [hc]
  unfold findByEmail at h
  rw [h]
  rfl

theorem findById_markVerified_verified (users : List StoredUser) (uid : String)
    (h : ∃ x ∈ users, x.id = uid) :
    ∃ u', findById (markVerified users uid) uid = some u' ∧
      u'.emailVerified = true := by
  induction users with
  | nil => simp at h
  | cons y rest ih =>
    by_cases hy : y.id = uid
    · exact ⟨{ y with emailVerified := true },
        by simp [findById, markVerified, List.find?_cons, hy], rfl⟩
    · obtain ⟨x, hx, hxid⟩ := h
      rcases List.mem_cons.mp hx with rfl | hmem
      · exact absurd hxid hy
      · obtain ⟨u', hu', hv⟩ := ih ⟨x, hmem, hxid⟩
        refine ⟨u', ?_, hv⟩
        unfold findById markVerified at hu' ⊢
        rw [List.map_cons, if_neg hy, List.find?_cons_of_neg _ (by simp [hy])]
        exact hu'

theorem verifyRefreshToken_ok_eq (t d : Jwt) (now : Nat)
    (h : JWTService.verifyRefreshToken t now = .ok d) : d = t := by
  unfold JWTService.verifyRefreshToken at h
  split at h
  · split at h
    · exact (Except.ok.injEq _ _ |>.mp h).symm
    · exact absurd h (by simp)
  · exact absurd h (by simp)

theorem refreshToken_rejects_store_mismatch (s : ServerState) (t : Jwt)
    (now : Nat) (htyp : t.typ = some "refresh") (hexp : now < t.exp)
    (hne : (s.store.getRefreshToken t.userId now).1 ≠ some t) :
    (AuthService.refreshToken s t now).2 =
      .error ⟨401, "Invalid refresh token", "INVALID_REFRESH_TOKEN"⟩ := by
  have hv : JWTService.verifyRefreshToken t now = .ok t := by
    unfold JWTService.verifyRefreshToken
    rw [if_pos hexp, if_pos htyp]
  simp only [AuthService.refreshToken, hv]
  rw [if_pos hne]

/-! ### Claim theorems -/

/-- C1 (code bug evaluation): after `refreshToken` rotates `demoRefresh1`
into a new pair at time 2000, presenting `demoRefresh1` again at time 3000
still succeeds — `setRefreshToken` only adds the new credential to the
stored set and never removes the predecessor, and `getRefreshToken`
returns the first stored member, which is still `demoRefresh1`.  The spec
requires the second call to fail with `InvalidRefreshToken`. -/
theorem refresh_rotation_keeps_predecessor_valid :
    (AuthService.refreshToken demoRotState demoRefresh1 2000).2 =
      .ok (JWTService.generateAccessToken "u1" "a@x.com" 2000,
        JWTService.generateRefreshToken "u1" 2000) ∧
    (AuthService.refreshToken
        (AuthService.refreshToken demoRotState demoRefresh1 2000).1
        demoRefresh1 3000).2 =
      .ok (JWTService.generateAccessToken "u1" "a@x.com" 3000,
        JWTService.generateRefreshToken "u1" 3000) ∧
    demoRefresh1 ∈ storedRefreshTokens
      (AuthService.refreshToken
        (AuthService.refreshToken demoRotState demoRefresh1 2000).1
        demoRefresh1 3000).1.store "u1" :=
  ⟨rfl, rfl, by decide⟩

/-- C2: no operation issues a credential pair to an unverified identity —
`register` success carries only `success`/`message`/`email`, a successful
`verifyEmail` leaves the responded identity stored with
`emailVerified = true`, and `refreshToken` succeeds only when the loaded
identity exists and is verified. -/
theorem tokens_only_for_verified_identities :
    (∀ s req code newId emailOk now r,
      (AuthService.register s req code newId emailOk now).2 = .ok r →
      r = { success := true, message := "Verification code sent to email",
            email := lowerString req.email }) ∧
    (∀ s email code now s' resp,
      AuthService.verifyEmail s email code now = (s', .ok resp) →
      ∃ u', findById s'.users resp.user.id = some u' ∧
        u'.emailVerified = true) ∧
    (∀ s t now p,
      (AuthService.refreshToken s t now).2 = .ok p →
      ∃ u, findById s.users t.userId = some u ∧ u.emailVerified = true) := by
  refine ⟨?_, ?_, ?_⟩
  · intro s req code newId emailOk now r h
    unfold AuthService.register at h
    simp only [] at h
    split at h
    · exact absurd h (by simp)
    · split at h
      · exact absurd h (by simp)
      · split at h
        · simp only [Except.ok.injEq] at h
          exact h.symm
        · exact absurd h (by simp)
  · intro s email code now s' resp h
    unfold AuthService.verifyEmail at h
    simp only [] at h
    split at h
    · exact absurd h (by simp)
    next user heq =>
      split at h
      · exact absurd h (by simp)
      next hver =>
        split at h
        · exact absurd h (by simp)
        next storedCode hcode =>
          split at h
          · exact absurd h (by simp)
          next hmatch =>
            rw [Prod.mk.injEq] at h
            obtain ⟨hs', hresp⟩ := h
            simp only [Except.ok.injEq] at hresp
            subst hs'
            subst hresp
            have huser : ∃ x ∈ s.users, x.id = user.id :=
              ⟨user, List.mem_of_find?_eq_some heq, rfl⟩
            simpa using findById_markVerified_verified s.users user.id huser
  · intro s t now p h
    unfold AuthService.refreshToken at h
    simp only [] at h
    split at h
    · exact absurd h (by simp)
    next decoded hv =>
      have hdt : decoded = t := verifyRefreshToken_ok_eq t decoded now hv
      subst hdt
      split at h
      · exact absurd h (by simp)
      next hstored =>
        split at h
        · exact absurd h (by simp)
        next user hfound =>
          split at h
          · exact absurd h (by simp)
          next hveru =>
            refine ⟨user, ?_, ?_⟩
            · simpa using hfound
            · simpa using hveru

/-- C2 witness: the three verified-identity facts at concrete runs. -/
theorem tokens_only_for_verified_identities_witness :
    ({ success := true, message := "Verification code sent to email",
       email := "a@x.com" } : RegisterResult) =
      { success := true, message := "Verification code sent to email",
        email := lowerString "a@x.com" } ∧
    (∃ u', findById demoVerifyRun.1.users demoAuthResponse.user.id = some u' ∧
      u'.emailVerified = true) ∧
    (∃ u, findById demoRotState.users demoRefresh1.userId = some u ∧
      u.emailVerified = true) :=
  ⟨tokens_only_for_verified_identities.1 emptyState demoRegisterReq
      "123456" "u9" true 100
      { success := true, message := "Verification code sent to email",
        email := "a@x.com" } rfl,
   tokens_only_for_verified_identities.2.1 demoPendingState "b@x.com" "123456"
      500 demoVerifyRun.1 demoAuthResponse rfl,
   tokens_only_for_verified_identities.2.2 demoRotState demoRefresh1 2000
      (JWTService.generateAccessToken "u1" "a@x.com" 2000,
        JWTService.generateRefreshToken "u1" 2000) rfl⟩

/-- C3 counterexample: a successful `verifyEmail` followed by a second
submission of the same code fails with `EMAIL_ALREADY_VERIFIED` (the
already-verified check precedes the code lookup), not with `CODE_EXPIRED`
as the claim states. -/
theorem second_verify_not_code_expired :
    resultCode (AuthService.verifyEmail demoPendingState "b@x.com" "123456" 500).2 =
      none ∧
    resultCode (AuthService.verifyEmail
        (AuthService.verifyEmail demoPendingState "b@x.com" "123456" 500).1
        "b@x.com" "123456" 600).2 = some "EMAIL_ALREADY_VERIFIED" ∧
    some "EMAIL_ALREADY_VERIFIED" ≠ some "CODE_EXPIRED" :=
  ⟨rfl, rfl, by decide⟩

/-- C3 amended: after a successful `verifyEmail(email, C)` the stored
code is deleted, and a second `verifyEmail(email, C)` fails with the
`EMAIL_ALREADY_VERIFIED` rejection (never `INVALID_CODE`), because the
already-verified check precedes the code lookup. -/
theorem second_verify_already_verified (s : ServerState) (email c : String)
    (now now' : Nat) (s' : ServerState) (resp : AuthResponse)
    (h : AuthService.verifyEmail s email c now = (s', .ok resp)) :
    (AuthService.verifyEmail s' email c now').2 =
      .error ⟨400, "Email is already verified", "EMAIL_ALREADY_VERIFIED"⟩ ∧
    assocFind s'.store.emailCodes (lowerString email) = none := by
  unfold AuthService.verifyEmail at h
  simp only [] at h
  split at h
  · exact absurd h (by simp)
  next user heq =>
    split at h
    · exact absurd h (by simp)
    next hver =>
      split at h
      · exact absurd h (by simp)
      next storedCode hcode =>
        split at h
        · exact absurd h (by simp)
        next hmatch =>
          rw [Prod.mk.injEq] at h
          obtain ⟨hs', _⟩ := h
          have hkey : user.email = lowerString email := by
            have := List.find?_some heq
            simpa using this
          subst hs'
          constructor
          · have hfound := findByEmail_markVerified s.users user.id email user heq
            rw [if_pos rfl] at hfound
            unfold AuthService.verifyEmail
            simp only []
            rw [show findByEmail
                ({ users := markVerified s.users user.id,
                   store := ((s.store.getEmailCode user.email now).2.deleteEmailCode
                     user.email).setRefreshToken user.id
                     (JWTService.generateRefreshToken user.id now) (7 * 24 * 60 * 60) now } :
                  ServerState).users email = some { user with emailVerified := true } from hfound]
            rfl
          · simp only [setRefreshToken_emailCodes, InMemoryFallback.deleteEmailCode]
            rw [← hkey]
            exact assocFind_assocDelete_self _ _

/-- C3 witness: the amended behaviour on the concrete verification run. -/
theorem second_verify_already_verified_witness :
    (AuthService.verifyEmail demoVerifyRun.1 "b@x.com" "123456" 600).2 =
      .error ⟨400, "Email is already verified", "EMAIL_ALREADY_VERIFIED"⟩ ∧
    assocFind demoVerifyRun.1.store.emailCodes (lowerString "b@x.com") = none :=
  second_verify_already_verified demoPendingState "b@x.com" "123456" 500 600
    demoVerifyRun.1 demoAuthResponse rfl

/-- C4 counterexample: an issued (unexpired) refresh token presented to
`verifyAccessToken` is accepted — `verifyAccessToken` performs no
discriminator check, so the claimed rejection in this direction is false. -/
theorem verify_access_accepts_refresh_token :
    JWTService.verifyAccessToken (JWTService.generateRefreshToken "u1" 1000) 2000 =
      .ok (JWTService.generateRefreshToken "u1" 1000) := rfl

/-- C4 amended: type discrimination holds in one direction only — every
issued access token is rejected by `verifyRefreshToken` (discriminator
mismatch, surfaced as the same error as expiry), while an unexpired issued
refresh token is accepted by `verifyAccessToken`. -/
theorem token_type_discrimination_one_way :
    (∀ uid email iat now,
      JWTService.verifyRefreshToken
          (JWTService.generateAccessToken uid email iat) now =
        .error "Invalid or expired refresh token") ∧
    (∀ uid iat now, now < iat + refreshTokenLifetimeMs →
      JWTService.verifyAccessToken (JWTService.generateRefreshToken uid iat) now =
        .ok (JWTService.generateRefreshToken uid iat)) := by
  constructor
  · intro uid email iat now
    unfold JWTService.verifyRefreshToken JWTService.generateAccessToken
    split
    · simp
    · rfl
  · intro uid iat now h
    unfold JWTService.verifyAccessToken JWTService.generateRefreshToken
    rw [if_pos]
    exact h

/-- C4 witness: the amended discrimination facts at concrete tokens. -/
theorem token_type_discrimination_one_way_witness :
    JWTService.verifyRefreshToken
        (JWTService.generateAccessToken "u1" "a@x.com" 5) 6 =
      .error "Invalid or expired refresh token" ∧
    JWTService.verifyAccessToken (JWTService.generateRefreshToken "u1" 5) 6 =
      .ok (JWTService.generateRefreshToken "u1" 5) :=
  ⟨token_type_discrimination_one_way.1 "u1" "a@x.com" 5 6,
   token_type_discrimination_one_way.2 "u1" 5 6 (by decide)⟩

/-- C5: a structurally valid, unexpired refresh token that is not a member
of the stored refresh-credential set for its embedded identity is rejected
with `INVALID_REFRESH_TOKEN`. -/
theorem unknown_refresh_token_rejected (s : ServerState) (t : Jwt) (now : Nat)
    (htyp : t.typ = some "refresh") (hexp : now < t.exp)
    (hmem : t ∉ storedRefreshTokens s.store t.userId) :
    (AuthService.refreshToken s t now).2 =
      .error ⟨401, "Invalid refresh token", "INVALID_REFRESH_TOKEN"⟩ := by
  apply refreshToken_rejects_store_mismatch s t now htyp hexp
  unfold InMemoryFallback.getRefreshToken
  unfold storedRefreshTokens at hmem
  cases hf : assocFind s.store.refreshTokens t.userId with
  | none => simp
  | some p =>
    obtain ⟨toks, ts⟩ := p
    rw [hf] at hmem
    by_cases hts : ts ≤ now
    · simp [hts]
    · simp only [hts, if_false]
      cases toks with
      | nil => simp
      | cons a l =>
        simp only [List.head?_cons, ne_eq, Option.some.injEq]
        rintro rfl
        exact hmem (List.mem_cons_self a l)

/-- C5 witness: a fresh, well-formed refresh token for `u1` that is not
stored is rejected. -/
theorem unknown_refresh_token_rejected_witness :
    demoRefresh2.typ = some "refresh" ∧ (3000 : Nat) < demoRefresh2.exp ∧
    demoRefresh2 ∉ storedRefreshTokens demoRotState.store demoRefresh2.userId ∧
    (AuthService.refreshToken demoRotState demoRefresh2 3000).2 =
      .error ⟨401, "Invalid refresh token", "INVALID_REFRESH_TOKEN"⟩ :=
  ⟨rfl, by decide, by decide,
   unknown_refresh_token_rejected demoRotState demoRefresh2 3000 rfl
     (by decide) (by decide)⟩

/-- C6 counterexample: when the SMTP collaborator fails, `register`
surfaces the generic catch-all 500 `REGISTRATION_ERROR`, not a distinct
email-dispatch error code; the created identity record and the stored
verification code are kept. -/
theorem register_email_failure_generic_error :
    (AuthService.register emptyState demoRegisterReq "123456" "u1" false 100).2 =
      .error ⟨500, "Registration failed", "REGISTRATION_ERROR"⟩ ∧
    some "REGISTRATION_ERROR" ≠ some "EMAIL_DISPATCH_FAILED" ∧
    (AuthService.register emptyState demoRegisterReq "123456" "u1" false 100).1.users =
      [{ id := "u1", email := "a@x.com", passwordHash := hashPassword "Abcdef1!",
         firstName := "A", lastName := "B", emailVerified := false }] ∧
    assocFind (AuthService.register emptyState demoRegisterReq
        "123456" "u1" false 100).1.store.emailCodes "a@x.com" =
      some ("123456", 100 + 600 * 1000) :=
  ⟨rfl, by decide, rfl, by decide⟩

/-- C6 amended: an email-send failure during `register` surfaces as the
generic 500 `REGISTRATION_ERROR` (no dispatch-specific error code exists),
and the created identity record and stored verification code are not
rolled back — the code remains retrievable for its full TTL. -/
theorem register_email_failure_no_rollback (s : ServerState)
    (req : RegisterRequest) (code newId : String) (now now' : Nat)
    (hfind : findByEmail s.users req.email = none)
    (hvalid : (AuthService.validatePassword req.password).isValid = true)
    (hfresh : now' < now + 600 * 1000) :
    (AuthService.register s req code newId false now).2 =
      .error ⟨500, "Registration failed", "REGISTRATION_ERROR"⟩ ∧
    (∃ u ∈ (AuthService.register s req code newId false now).1.users,
      u.email = lowerString req.email ∧ u.emailVerified = false) ∧
    ((AuthService.register s req code newId false now).1.store.getEmailCode
      (lowerString req.email) now').1 = some code := by
  have hreg : AuthService.register s req code newId false now =
      ({ users := s.users ++ [registeredUser req newId],
         store := s.store.setEmailCode (lowerString req.email) code 600 now },
       .error ⟨500, "Registration failed", "REGISTRATION_ERROR"⟩) := by
    unfold AuthService.register registeredUser
    rw [hfind]
    simp [hvalid]
  rw [hreg]
  refine ⟨rfl, ⟨registeredUser req newId, by simp, rfl, rfl⟩, ?_⟩
  unfold InMemoryFallback.setEmailCode InMemoryFallback.getEmailCode
  simp only []
  rw [assocFind_assocSet_self]
  simp only []
  rw [if_neg (by omega)]

/-- C6 witness: the amended no-rollback facts at a concrete failing
registration. -/
theorem register_email_failure_no_rollback_witness :
    (AuthService.register emptyState demoRegisterReq "123456" "u9" false 100).2 =
      .error ⟨500, "Registration failed", "REGISTRATION_ERROR"⟩ ∧
    (∃ u ∈ (AuthService.register emptyState demoRegisterReq "123456" "u9" false 100).1.users,
      u.email = lowerString demoRegisterReq.email ∧ u.emailVerified = false) ∧
    ((AuthService.register emptyState demoRegisterReq "123456" "u9" false
        100).1.store.getEmailCode (lowerString demoRegisterReq.email) 200).1 =
      some "123456" :=
  register_email_failure_no_rollback emptyState demoRegisterReq "123456" "u9"
    100 200 rfl rfl (by decide)

/-- C7 counterexample: storing a second refresh credential for a user in
the in-process fallback keeps the entry's old expiry timestamp (5000)
instead of resetting it to the full 7 days from now. -/
theorem fallback_set_refresh_keeps_old_expiry :
    (InMemoryFallback.setRefreshToken
        { emailCodes := [], refreshTokens := [("u1", [demoRefresh1], 5000)],
          userStatuses := [] }
        "u1" demoRefresh2 604800 10000).refreshTokens =
      [("u1", [demoRefresh1, demoRefresh2], 5000)] ∧
    (5000 : Nat) ≠ 10000 + 604800 * 1000 :=
  ⟨rfl, by decide⟩

/-- C7 amended: the remote path (`sadd` + `expire`) resets the key's TTL
to the full value on every successful store, while the in-process fallback
sets the expiry only when a user's entry is first created and leaves it
unchanged on subsequent stores. -/
theorem refresh_ttl_reset_remote_only :
    (∀ entry tok ttl now,
      (redisSetRefreshToken entry tok ttl now).expiresAt = now + ttl * 1000) ∧
    (∀ st uid tok ttl now toks ts,
      assocFind st.refreshTokens uid = some (toks, ts) →
      assocFind (InMemoryFallback.setRefreshToken st uid tok ttl now).refreshTokens uid =
        some ((if tok ∈ toks then toks else toks ++ [tok]), ts)) ∧
    (∀ st uid tok ttl now,
      assocFind st.refreshTokens uid = none →
      assocFind (InMemoryFallback.setRefreshToken st uid tok ttl now).refreshTokens uid =
        some ([tok], now + ttl * 1000)) := by
  refine ⟨?_, ?_, ?_⟩
  · intro entry tok ttl now
    cases entry <;> rfl
  · intro st uid tok ttl now toks ts h
    unfold InMemoryFallback.setRefreshToken
    rw [h]
    exact assocFind_assocSet_self _ _ _
  · intro st uid tok ttl now h
    unfold InMemoryFallback.setRefreshToken
    rw [h]
    exact assocFind_assocSet_self _ _ _

/-- C7 witness: the amended TTL facts at concrete stores. -/
theorem refresh_ttl_reset_remote_only_witness :
    (redisSetRefreshToken (some ⟨[demoRefresh1], 5000⟩) demoRefresh2 604800
        10000).expiresAt = 10000 + 604800 * 1000 ∧
    assocFind (InMemoryFallback.setRefreshToken
        { emailCodes := [], refreshTokens := [("u1", [demoRefresh1], 5000)],
          userStatuses := [] }
        "u1" demoRefresh2 604800 10000).refreshTokens "u1" =
      some ((if demoRefresh2 ∈ [demoRefresh1] then [demoRefresh1]
        else [demoRefresh1] ++ [demoRefresh2]), 5000) ∧
    assocFind (InMemoryFallback.setRefreshToken emptyStore "u1" demoRefresh1
        604800 10000).refreshTokens "u1" =
      some ([demoRefresh1], 10000 + 604800 * 1000) :=
  ⟨refresh_ttl_reset_remote_only.1 (some ⟨[demoRefresh1], 5000⟩) demoRefresh2
      604800 10000,
   refresh_ttl_reset_remote_only.2.1 _ "u1" demoRefresh2 604800 10000
      [demoRefresh1] 5000 rfl,
   refresh_ttl_reset_remote_only.2.2 emptyStore "u1" demoRefresh1 604800
      10000 rfl⟩

/-- C8: submitting a wrong code to an unverified identity fails with
`INVALID_CODE` and leaves the whole state unchanged, so a later submission
of the correct code within the TTL still succeeds. -/
theorem invalid_code_preserves_stored_code (s : ServerState)
    (email c cbad : String) (now now' texp : Nat) (u : StoredUser)
    (hfind : findByEmail s.users email = some u)
    (hver : u.emailVerified = false)
    (hcode : assocFind s.store.emailCodes u.email = some (c, texp))
    (hnow : now < texp) (hnow' : now' < texp) (hne : cbad ≠ c) :
    AuthService.verifyEmail s email cbad now =
      (s, .error ⟨400, "Invalid verification code", "INVALID_CODE"⟩) ∧
    (AuthService.verifyEmail s email c now').2 =
      .ok { accessToken := JWTService.generateAccessToken u.id u.email now',
            refreshToken := JWTService.generateRefreshToken u.id now',
            user := { id := u.id, email := u.email, firstName := u.firstName,
                      lastName := u.lastName } } := by
  have hget : ∀ m, m < texp → s.store.getEmailCode u.email m = (some c, s.store) := by
    intro m hm
    unfold InMemoryFallback.getEmailCode
    rw [hcode]
    simp only []
    rw [if_neg (by omega)]
  constructor
  · unfold AuthService.verifyEmail
    rw [hfind]
    simp only [hver, Bool.false_eq_true, if_false, hget now hnow]
    rw [if_pos (Ne.symm hne)]
  · unfold AuthService.verifyEmail
    rw [hfind]
    simp only [hver, Bool.false_eq_true, if_false, hget now' hnow']
    rw [if_neg (by simp)]

/-- C8 witness: wrong code `999999` then right code `123456` on the
pending demo identity. -/
theorem invalid_code_preserves_stored_code_witness :
    AuthService.verifyEmail demoPendingState "b@x.com" "999999" 500 =
      (demoPendingState, .error ⟨400, "Invalid verification code", "INVALID_CODE"⟩) ∧
    (AuthService.verifyEmail demoPendingState "b@x.com" "123456" 600).2 =
      .ok { accessToken := JWTService.generateAccessToken "u2" "b@x.com" 600,
            refreshToken := JWTService.generateRefreshToken "u2" 600,
            user := { id := "u2", email := "b@x.com", firstName := "A",
                      lastName := "B" } } :=
  invalid_code_preserves_stored_code demoPendingState "b@x.com" "123456"
    "999999" 500 600 700000 demoPendingUser rfl rfl rfl (by decide)
    (by decide) (by decide)

/-- C9: `validatePassword "short"` reports all three violated rules
(length, digit, special character — pairwise distinct), and `register`
surfaces them aggregated in a single 400 `INVALID_PASSWORD` error. -/
theorem weak_password_rules_aggregated :
    AuthService.validatePassword "short" =
      { isValid := false,
        errors := ["Password must be at least 8 characters long",
          "Password must contain at least one digit",
          "Password must contain at least one special character"] } ∧
    (AuthService.register emptyState
        { email := "a@x.com", password := "short", firstName := "A",
          lastName := "B" } "123456" "u9" true 100).2 =
      .error ⟨400,
        "Password validation failed: Password must be at least 8 characters long, Password must contain at least one digit, Password must contain at least one special character",
        "INVALID_PASSWORD"⟩ ∧
    ("Password must be at least 8 characters long" ≠
      "Password must contain at least one digit") ∧
    ("Password must contain at least one digit" ≠
      "Password must contain at least one special character") :=
  ⟨rfl, rfl, by decide, by decide⟩

/-- C10: the backing structure is set-shaped — `setRefreshToken` on an
existing entry appends rather than replaces; `getRefreshToken` returns
only the first stored member; and `refreshToken` rejects a presented
token that differs from that first member even when the presented token is
itself a stored member of the set. -/
theorem refresh_set_first_member_semantics :
    (∀ st uid tok ttl now toks ts,
      assocFind st.refreshTokens uid = some (toks, ts) → tok ∉ toks →
      assocFind (InMemoryFallback.setRefreshToken st uid tok ttl now).refreshTokens uid =
        some (toks ++ [tok], ts)) ∧
    (∀ st uid now t1 rest ts,
      assocFind st.refreshTokens uid = some (t1 :: rest, ts) → now < ts →
      (InMemoryFallback.getRefreshToken st uid now).1 = some t1) ∧
    (∀ s T now t1 rest ts,
      T.typ = some "refresh" → now < T.exp →
      assocFind s.store.refreshTokens T.userId = some (t1 :: rest, ts) →
      now < ts → T ∈ t1 :: rest → T ≠ t1 →
      (AuthService.refreshToken s T now).2 =
        .error ⟨401, "Invalid refresh token", "INVALID_REFRESH_TOKEN"⟩) := by
  refine ⟨?_, ?_, ?_⟩
  · intro st uid tok ttl now toks ts h hmem
    unfold InMemoryFallback.setRefreshToken
    rw [h]
    simp only [hmem, if_false]
    exact assocFind_assocSet_self _ _ _
  · intro st uid now t1 rest ts h hts
    unfold InMemoryFallback.getRefreshToken
    rw [h]
    simp [Nat.not_le.mpr hts]
  · intro s T now t1 rest ts htyp hexp h hts hmem hne
    apply refreshToken_rejects_store_mismatch s T now htyp hexp
    unfold InMemoryFallback.getRefreshToken
    rw [h]
    simp only [Nat.not_le.mpr hts, if_false]
    simp [hne.symm]

/-- C10 witness: the set-shaped semantics at a two-token store —
`demoRefresh2` is stored alongside `demoRefresh1` yet rejected, because
`getRefreshToken` returns `demoRefresh1`. -/
theorem refresh_set_first_member_semantics_witness :
    assocFind (InMemoryFallback.setRefreshToken demoRotState.store "u1"
        demoRefresh2 604800 3000).refreshTokens "u1" =
      some ([demoRefresh1] ++ [demoRefresh2], 1000 + refreshTokenLifetimeMs) ∧
    (InMemoryFallback.getRefreshToken demoTwoTokenStore "u1" 3000).1 =
      some demoRefresh1 ∧
    (AuthService.refreshToken demoTwoTokenState demoRefresh2 3000).2 =
      .error ⟨401, "Invalid refresh token", "INVALID_REFRESH_TOKEN"⟩ :=
  ⟨refresh_set_first_member_semantics.1 demoRotState.store "u1" demoRefresh2
      604800 3000 [demoRefresh1] (1000 + refreshTokenLifetimeMs) rfl (by decide),
   refresh_set_first_member_semantics.2.1 demoTwoTokenStore "u1" 3000
      demoRefresh1 [demoRefresh2] (1000 + refreshTokenLifetimeMs) rfl (by decide),
   refresh_set_first_member_semantics.2.2 demoTwoTokenState demoRefresh2 3000
      demoRefresh1 [demoRefresh2] (1000 + refreshTokenLifetimeMs) rfl
      (by decide) rfl (by decide) (by decide) (by decide)⟩
